import Mathlib

/-!
Verification of the request converter of the Kiro OpenAI Gateway
(src/kiro_gateway/converters.py together with the model mapping of
src/kiro_gateway/config.py), as a shallow embedding in Lean 4.

The Python code works on dynamically typed data.  The embedding uses:

* a `Json` inductive with a fuel-based parser `parseJson` modelling the
  standard-library function `json.loads` applied to tool-call argument
  strings (success or failure, and the parsed value for plain inputs);
* a `Content` / `ContentPart` pair for OpenAI message content
  (null, string, or a list of typed parts);
* plain structures for messages, tools and the outgoing Kiro payload,
  with `Option` marking keys that the Python code may leave absent and
  `[]` standing for an absent list-valued key.

Fallible steps (the unguarded `json.loads` call and the empty-request
check) are modelled with `Except ConvertError`.
-/

/-- A JSON value.  Numbers keep their source lexeme: the converter never
computes with numeric values, it only passes them through. -/
inductive Json where
  | null : Json
  | bool : Bool → Json
  | num : String → Json
  | str : String → Json
  | arr : List Json → Json
  | obj : List (String × Json) → Json
deriving Repr

/-- Hexadecimal digit value, for string escapes of the JSON parser. -/
def hexDigitVal (c : Char) : Option Nat :=
  if '0' ≤ c ∧ c ≤ '9' then some (c.toNat - '0'.toNat)
  else if 'a' ≤ c ∧ c ≤ 'f' then some (c.toNat - 'a'.toNat + 10)
  else if 'A' ≤ c ∧ c ≤ 'F' then some (c.toNat - 'A'.toNat + 10)
  else none

/-- Drop leading JSON whitespace. -/
def skipWs : List Char → List Char
  | [] => []
  | c :: cs => if c = ' ' ∨ c = '\t' ∨ c = '\n' ∨ c = '\r' then skipWs cs else c :: cs

/-- Consume the body of a JSON string literal after the opening quote,
returning the decoded string and the remaining input.  An unescaped
control character (code point below 32) is rejected, as json.loads does
in its default strict mode. -/
def parseStringBody (fuel : Nat) (cs : List Char) : Option (String × List Char) :=
  match fuel, cs with
  | 0, _ => none
  | _, [] => none
  | fuel + 1, c :: cs =>
    if c = '"' then some ("", cs)
    else if c = '\\' then
      match cs with
      | [] => none
      | e :: cs2 =>
        let dec : Option (Char × List Char) :=
          if e = '"' then some ('"', cs2)
          else if e = '\\' then some ('\\', cs2)
          else if e = '/' then some ('/', cs2)
          else if e = 'b' then some (Char.ofNat 8, cs2)
          else if e = 'f' then some (Char.ofNat 12, cs2)
          else if e = 'n' then some ('\n', cs2)
          else if e = 'r' then some ('\r', cs2)
          else if e = 't' then some ('\t', cs2)
          else if e = 'u' then
            match cs2 with
            | h1 :: h2 :: h3 :: h4 :: cs3 =>
              match hexDigitVal h1, hexDigitVal h2, hexDigitVal h3, hexDigitVal h4 with
              | some d1, some d2, some d3, some d4 =>
                some (Char.ofNat (((d1 * 16 + d2) * 16 + d3) * 16 + d4), cs3)
              | _, _, _, _ => none
            | _ => none
          else none
        match dec with
        | some (ch, rest) =>
          match parseStringBody fuel rest with
          | some (s, r) => some (String.mk (ch :: s.data), r)
          | none => none
        | none => none
    else if c.toNat < 32 then none
    else
      match parseStringBody fuel cs with
      | some (s, r) => some (String.mk (c :: s.data), r)
      | none => none

/-- Longest prefix of decimal digits. -/
def takeDigits : List Char → List Char × List Char
  | [] => ([], [])
  | c :: cs =>
    if c.isDigit then
      let (ds, rest) := takeDigits cs
      (c :: ds, rest)
    else ([], c :: cs)

/-- Consume a JSON number (strict grammar, plus the Infinity literal that
Python json accepts), returning its lexeme. -/
def parseNumberLex (cs : List Char) : Option (String × List Char) :=
  let (sign, cs1) := match cs with
    | '-' :: r => (['-'], r)
    | _ => (([] : List Char), cs)
  match cs1 with
  | 'I' :: 'n' :: 'f' :: 'i' :: 'n' :: 'i' :: 't' :: 'y' :: rest =>
    some (String.mk (sign ++ "Infinity".data), rest)
  | _ =>
    let intPart : Option (List Char × List Char) :=
      match cs1 with
      | '0' :: r => some (['0'], r)
      | c :: r =>
        if c.isDigit then
          let (ds, rest) := takeDigits r
          some (c :: ds, rest)
        else none
      | [] => none
    match intPart with
    | none => none
    | some (ip, cs2) =>
      let fracPart : Option (List Char × List Char) :=
        match cs2 with
        | '.' :: d :: r =>
          if d.isDigit then
            let (ds, rest) := takeDigits r
            some ('.' :: d :: ds, rest)
          else none
        | _ => some ([], cs2)
      match fracPart with
      | none => none
      | some (fp, cs3) =>
        let expPart : Option (List Char × List Char) :=
          match cs3 with
          | e :: r =>
            if e = 'e' ∨ e = 'E' then
              let (es, r2) := match r with
                | s :: r3 => if s = '+' ∨ s = '-' then ([e, s], r3) else ([e], r)
                | [] => ([e], r)
              match r2 with
              | d :: r3 =>
                if d.isDigit then
                  let (ds, rest) := takeDigits r3
                  some (es ++ d :: ds, rest)
                else none
              | [] => none
            else some ([], cs3)
          | [] => some ([], cs3)
        match expPart with
        | none => none
        | some (ep, cs4) => some (String.mk (sign ++ ip ++ fp ++ ep), cs4)

mutual

/-- Parse one JSON value (after optional whitespace). -/
def parseValue (fuel : Nat) (cs : List Char) : Option (Json × List Char) :=
  match fuel with
  | 0 => none
  | fuel + 1 =>
    match skipWs cs with
    | [] => none
    | c :: rest =>
      if c = 'n' then
        match rest with
        | 'u' :: 'l' :: 'l' :: r => some (Json.null, r)
        | _ => none
      else if c = 't' then
        match rest with
        | 'r' :: 'u' :: 'e' :: r => some (Json.bool true, r)
        | _ => none
      else if c = 'f' then
        match rest with
        | 'a' :: 'l' :: 's' :: 'e' :: r => some (Json.bool false, r)
        | _ => none
      else if c = 'N' then
        match rest with
        | 'a' :: 'N' :: r => some (Json.num "NaN", r)
        | _ => none
      else if c = '"' then
        match parseStringBody (fuel + 1) rest with
        | some (s, r) => some (Json.str s, r)
        | none => none
      else if c = '[' then
        match skipWs rest with
        | ']' :: r => some (Json.arr [], r)
        | cs2 =>
          match parseValue fuel cs2 with
          | some (v, r) =>
            match parseArrayRest fuel r with
            | some (vs, r2) => some (Json.arr (v :: vs), r2)
            | none => none
          | none => none
      else if c = '{' then
        match skipWs rest with
        | '}' :: r => some (Json.obj [], r)
        | cs2 =>
          match parseMember fuel cs2 with
          | some (kv, r) =>
            match parseObjRest fuel r with
            | some (kvs, r2) => some (Json.obj (kv :: kvs), r2)
            | none => none
          | none => none
      else
        match parseNumberLex (c :: rest) with
        | some (lex, r) => some (Json.num lex, r)
        | none => none

/-- Parse the continuation of a JSON array after a value: a comma and a
further value, or the closing bracket. -/
def parseArrayRest (fuel : Nat) (cs : List Char) : Option (List Json × List Char) :=
  match fuel with
  | 0 => none
  | fuel + 1 =>
    match skipWs cs with
    | ']' :: r => some ([], r)
    | ',' :: r =>
      match parseValue fuel r with
      | some (v, r2) =>
        match parseArrayRest fuel r2 with
        | some (vs, r3) => some (v :: vs, r3)
        | none => none
      | none => none
    | _ => none

/-- Parse one `key: value` member of a JSON object. -/
def parseMember (fuel : Nat) (cs : List Char) : Option ((String × Json) × List Char) :=
  match fuel with
  | 0 => none
  | fuel + 1 =>
    match skipWs cs with
    | '"' :: r =>
      match parseStringBody (fuel + 1) r with
      | some (k, r2) =>
        match skipWs r2 with
        | ':' :: r3 =>
          match parseValue fuel r3 with
          | some (v, r4) => some ((k, v), r4)
          | none => none
        | _ => none
      | none => none
    | _ => none

/-- Parse the continuation of a JSON object after a member. -/
def parseObjRest (fuel : Nat) (cs : List Char) : Option (List (String × Json) × List Char) :=
  match fuel with
  | 0 => none
  | fuel + 1 =>
    match skipWs cs with
    | '}' :: r => some ([], r)
    | ',' :: r =>
      match parseMember fuel r with
      | some (kv, r2) =>
        match parseObjRest fuel r2 with
        | some (kvs, r3) => some (kv :: kvs, r3)
        | none => none
      | none => none
    | _ => none

end

/-- Model of the Python standard-library call json.loads applied to a
string: parse one JSON document and require only whitespace after it.
Returns none where json.loads raises JSONDecodeError. -/
def parseJson (s : String) : Option Json :=
  match parseValue (2 * s.length + 8) s.data with
  | some (v, rest) => if skipWs rest = [] then some v else none
  | none => none

mutual

/-- Modelled from the spec: the message content type of
kiro_gateway/models.py (the models module itself is not in the source
tree).  Content may be null, a string, or an ordered list of typed parts;
a part is a text part, a bare string, an image part, a tool_use part or a
tool_result part. -/
inductive Content where
  | null : Content
  | str : String → Content
  | parts : List ContentPart → Content

/-- Modelled from the spec: one element of list-typed message content.
The fields are the dictionary keys the converter reads: a text part
carries "text"; a tool_use part carries "id", "name" and "input"; a
tool_result part carries "tool_use_id" and "content". -/
inductive ContentPart where
  | text : String → ContentPart
  | bareStr : String → ContentPart
  | image_url : String → ContentPart
  | tool_use : (id : String) → (name : String) → (input : Json) → ContentPart
  | tool_result : (tool_use_id : String) → (content : Content) → ContentPart

end

/-- Modelled from the spec: the function object inside one entry of an
assistant message's tool_calls array.  The converter reads the keys
"name" and "arguments" with defaults, so both are optional here. -/
structure ToolCallFn where
  name : Option String
  arguments : Option String
deriving Repr, DecidableEq

/-- Modelled from the spec: one entry of tool_calls.  The converter only
processes entries that are dictionaries (isinstance check); anything else
is skipped, which the constructor other stands for. -/
inductive ToolCall where
  | dict : (id : Option String) → (function : Option ToolCallFn) → ToolCall
  | other : ToolCall
deriving Repr, DecidableEq

/-- Modelled from the spec: an inbound OpenAI chat message
(kiro_gateway/models.py is not in the source tree).  An absent or null
tool_calls field and an empty list behave identically in the converter
(Python truthiness), so tool_calls is a plain list here. -/
structure ChatMessage where
  role : String
  content : Content
  tool_calls : List ToolCall
  tool_call_id : Option String

/-- Modelled from the spec: the function object of an inbound tool. -/
structure ToolFunction where
  name : String
  description : Option String
  parameters : Option Json
deriving Repr

/-- Modelled from the spec: an inbound tool definition. -/
structure Tool where
  type : String
  function : ToolFunction
deriving Repr

/-- Modelled from the spec: the slice of an inbound chat-completion
request that build_kiro_payload reads: model, messages and tools. -/
structure ChatCompletionRequest where
  model : String
  messages : List ChatMessage
  tools : Option (List Tool)

/-- One element of a Kiro toolResults array: a dict with keys "content"
(a list of text blocks, each modelled by its "text" string), "status"
and "toolUseId". -/
structure ToolResultOut where
  content : List String
  status : String
  toolUseId : String
deriving Repr, DecidableEq

/-- One element of a Kiro toolUses array: keys "name", "input" and
"toolUseId". -/
structure ToolUseOut where
  name : String
  input : Json
  toolUseId : String
deriving Repr

/-- One element of a Kiro history array: either a userInputMessage (with
constant origin "AI_EDITOR" left implicit and an optional context that
carries toolResults, absent key modelled by the empty list) or an
assistantResponseMessage (with toolUses, absent key modelled by the
empty list). -/
inductive HistoryEntry where
  | userInputMessage : (content : String) → (modelId : String) →
      (toolResults : List ToolResultOut) → HistoryEntry
  | assistantResponseMessage : (content : String) →
      (toolUses : List ToolUseOut) → HistoryEntry
deriving Repr

/-- One toolSpecification of the outgoing payload. -/
structure ToolSpec where
  name : String
  description : String
  inputSchema : Json
deriving Repr

/-- The userInputMessageContext dict: keys "tools" and "toolResults",
absent keys modelled by empty lists. -/
structure UserInputContext where
  tools : List ToolSpec
  toolResults : List ToolResultOut
deriving Repr

/-- The currentMessage.userInputMessage object of the payload. -/
structure UserInputMessage where
  content : String
  modelId : String
  origin : String
  userInputMessageContext : Option UserInputContext
deriving Repr

/-- The full outgoing payload: conversationState flattened into its
fields, history key absent iff the list is empty, profileArn key absent
iff the argument string was empty. -/
structure KiroPayload where
  conversationId : String
  chatTriggerType : String
  currentMessage : UserInputMessage
  history : List HistoryEntry
  profileArn : Option String
deriving Repr

/-- The two exceptions build_kiro_payload can raise: the explicit
ValueError for an empty request (spec name EmptyRequest) and the
JSONDecodeError escaping from the unguarded json.loads call. -/
inductive ConvertError where
  | noMessages : ConvertError
  | jsonDecodeError : String → ConvertError
deriving Repr, DecidableEq

/-- MODEL_MAPPING of config.py: external model names to internal ids. -/
def MODEL_MAPPING : List (String × String) :=
  [("claude-opus-4-5", "claude-opus-4.5"),
   ("claude-opus-4-5-20251101", "claude-opus-4.5"),
   ("claude-haiku-4-5", "claude-haiku-4.5"),
   ("claude-haiku-4.5", "claude-haiku-4.5"),
   ("claude-sonnet-4-5", "CLAUDE_SONNET_4_5_20250929_V1_0"),
   ("claude-sonnet-4-5-20250929", "CLAUDE_SONNET_4_5_20250929_V1_0"),
   ("claude-sonnet-4", "CLAUDE_SONNET_4_20250514_V1_0"),
   ("claude-sonnet-4-20250514", "CLAUDE_SONNET_4_20250514_V1_0"),
   ("claude-3-7-sonnet-20250219", "CLAUDE_3_7_SONNET_20250219_V1_0"),
   ("auto", "claude-sonnet-4.5")]

/-- get_internal_model_id of config.py: dictionary lookup with the
external name itself as the default. -/
def get_internal_model_id (external_model : String) : String :=
  match MODEL_MAPPING.find? (fun p => p.1 = external_model) with
  | some p => p.2
  | none => external_model

/-- The default of config.TOOL_DESCRIPTION_MAX_LENGTH. -/
def TOOL_DESCRIPTION_MAX_LENGTH_default : Int := 10000

/-- The text one content-list item contributes in extract_text_content:
a part with type text contributes its text, a dict with a text key its
text, a bare string itself; other items are skipped. -/
def item_text : ContentPart → String
  | .text t => t
  | .bareStr s => s
  | _ => ""

/-- extract_text_content of converters.py: null gives the empty string, a
string is returned as is, a list is joined item-wise. -/
def extract_text_content : Content → String
  | .null => ""
  | .str s => s
  | .parts items => String.join (items.map item_text)

/-- The loop of merge_adjacent_messages of converters.py, carrying the
last accumulated message: when the next message has the same role, the
last accumulated content is replaced by the newline-join of the two
flattened texts; otherwise the accumulated message is emitted and the
next message becomes the accumulator. -/
def merge_loop (last : ChatMessage) : List ChatMessage → List ChatMessage
  | [] => [last]
  | msg :: rest =>
    if msg.role = last.role then
      merge_loop
        { last with
          content := Content.str
            (extract_text_content last.content ++ "\n" ++ extract_text_content msg.content) }
        rest
    else last :: merge_loop msg rest

/-- merge_adjacent_messages of converters.py. -/
def merge_adjacent_messages : List ChatMessage → List ChatMessage
  | [] => []
  | m :: ms => merge_loop m ms

/-- The Kiro tool result built from one tool_result content part in
_extract_tool_results of converters.py. -/
def tool_result_out_of : ContentPart → Option ToolResultOut
  | .tool_result tuid inner =>
    some { content := [extract_text_content inner], status := "success", toolUseId := tuid }
  | _ => none

/-- _extract_tool_results of converters.py: collect tool_result parts of
list-typed content; any other content shape yields no results. -/
def extract_tool_results : Content → List ToolResultOut
  | .parts items => items.filterMap tool_result_out_of
  | _ => []

/-- The Kiro tool use built from one tool_use content part in
_extract_tool_uses of converters.py. -/
def tool_use_out_of : ContentPart → Option ToolUseOut
  | .tool_use i n inp => some { name := n, input := inp, toolUseId := i }
  | _ => none

/-- The tool uses contributed by list-typed content in _extract_tool_uses
of converters.py. -/
def tool_uses_of_content : Content → List ToolUseOut
  | .parts items => items.filterMap tool_use_out_of
  | _ => []

/-- The tool use built from one tool_calls entry in _extract_tool_uses of
converters.py: non-dict entries are skipped; the arguments string
(default "\x7b\x7d" when the function object or the key is missing) goes
through the unguarded json.loads, whose failure escapes as an
exception. -/
def tool_use_of_call : ToolCall → Except ConvertError (List ToolUseOut)
  | .other => .ok []
  | .dict i f =>
    let fn := f.getD { name := none, arguments := none }
    let args := fn.arguments.getD "\x7b\x7d"
    match parseJson args with
    | none => .error (.jsonDecodeError args)
    | some j => .ok [{ name := fn.name.getD "", input := j, toolUseId := i.getD "" }]

/-- The loop over msg.tool_calls in _extract_tool_uses of converters.py,
left to right, stopping at the first json.loads failure. -/
def tool_uses_of_calls : List ToolCall → Except ConvertError (List ToolUseOut)
  | [] => .ok []
  | tc :: rest => do
    let hd ← tool_use_of_call tc
    let tl ← tool_uses_of_calls rest
    pure (hd ++ tl)

/-- _extract_tool_uses of converters.py: tool uses from the tool_calls
field followed by tool_use parts inside the content. -/
def extract_tool_uses (m : ChatMessage) : Except ConvertError (List ToolUseOut) :=
  (tool_uses_of_calls m.tool_calls).map (fun us => us ++ tool_uses_of_content m.content)

/-- The history entries one message contributes in build_kiro_history of
converters.py: a user message maps to a userInputMessage, an assistant
message to an assistantResponseMessage, and every other role (system is
handled elsewhere, and the loop has no branch for any further role, in
particular none for tool) contributes nothing. -/
def history_entry_of (model_id : String) (m : ChatMessage) :
    Except ConvertError (List HistoryEntry) :=
  if m.role = "user" then
    .ok [.userInputMessage (extract_text_content m.content) model_id
          (extract_tool_results m.content)]
  else if m.role = "assistant" then
    (extract_tool_uses m).map
      (fun tus => [.assistantResponseMessage (extract_text_content m.content) tus])
  else
    .ok []

/-- build_kiro_history of converters.py. -/
def build_kiro_history (messages : List ChatMessage) (model_id : String) :
    Except ConvertError (List HistoryEntry) :=
  match messages with
  | [] => .ok []
  | m :: rest => do
    let h ← history_entry_of model_id m
    let t ← build_kiro_history rest model_id
    pure (h ++ t)

/-- The reference description substituted for an offloaded tool in
process_tools_with_long_descriptions of converters.py. -/
def long_description_sentinel (name : String) : String :=
  "[Full documentation in system prompt under \x27## Tool: " ++ name ++ "\x27]"

/-- The header put once in front of the accumulated tool documentation in
process_tools_with_long_descriptions of converters.py. -/
def tool_doc_header : String :=
  "\n\n---\n# Tool Documentation\nThe following tools have detailed documentation that couldn\x27t fit in the tool definition.\n\n"

/-- The per-tool loop of process_tools_with_long_descriptions of
converters.py, returning the processed tools and the documentation
sections in order: a non-function tool passes through; a function tool
whose description (None read as the empty string) has length at most the
limit passes through; a longer description is replaced by the sentinel
and contributes one section. -/
def process_tools_loop (maxLen : Int) : List Tool → List Tool × List String
  | [] => ([], [])
  | t :: ts =>
    let rest := process_tools_loop maxLen ts
    if t.type ≠ "function" then (t :: rest.1, rest.2)
    else
      let description := t.function.description.getD ""
      if (description.length : Int) ≤ maxLen then (t :: rest.1, rest.2)
      else
        ({ type := t.type,
           function := { name := t.function.name,
                         description := some (long_description_sentinel t.function.name),
                         parameters := t.function.parameters } } :: rest.1,
         ("## Tool: " ++ t.function.name ++ "\n\n" ++ description) :: rest.2)

/-- process_tools_with_long_descriptions of converters.py.  An absent or
empty tools list gives (None, "").  A non-positive limit disables the
offload.  Otherwise sections are joined with "\n\n---\n\n" behind the
header, and the documentation string stays empty when no tool was
offloaded. -/
def process_tools_with_long_descriptions (maxLen : Int) (tools : Option (List Tool)) :
    Option (List Tool) × String :=
  match tools with
  | none => (none, "")
  | some [] => (none, "")
  | some (t :: ts) =>
    if maxLen ≤ 0 then (some (t :: ts), "")
    else
      let (processed, parts) := process_tools_loop maxLen (t :: ts)
      let doc :=
        if parts = [] then ""
        else tool_doc_header ++ String.intercalate "\n\n---\n\n" parts
      (if processed.isEmpty then none else some processed, doc)

/-- The characters stripped by the Python method str.strip with no
argument: those for which str.isspace holds. -/
def is_py_space (c : Char) : Bool :=
  c = ' ' ∨ c = '\t' ∨ c = '\n' ∨ c = '\r' ∨ c = '\x0b' ∨ c = '\x0c' ∨
  c = '\x1c' ∨ c = '\x1d' ∨ c = '\x1e' ∨ c = '\x1f' ∨ c = '\x85' ∨ c = '\xa0' ∨
  c = '\u1680' ∨ ('\u2000' ≤ c ∧ c ≤ '\u200a') ∨ c = '\u2028' ∨ c = '\u2029' ∨
  c = '\u202f' ∨ c = '\u205f' ∨ c = '\u3000'

/-- The Python method str.strip: drop leading and trailing whitespace. -/
def str_strip (s : String) : String :=
  String.mk (((s.data.dropWhile is_py_space).reverse.dropWhile is_py_space).reverse)

/-- The non-system messages of build_kiro_payload of converters.py. -/
def strip_system (messages : List ChatMessage) : List ChatMessage :=
  messages.filter (fun m => m.role ≠ "system")

/-- The system prompt before tool documentation is appended: the
flattened contents of the system messages, each followed by a newline,
concatenated in order and stripped. -/
def system_prompt_raw (messages : List ChatMessage) : String :=
  str_strip (String.join ((messages.filter (fun m => m.role = "system")).map
    (fun m => extract_text_content m.content ++ "\n")))

/-- The system prompt of build_kiro_payload of converters.py after the
tool-documentation block is appended: when the block is non-empty it is
appended to a non-empty prompt, or stripped and used alone. -/
def system_prompt_full (maxLen : Int) (req : ChatCompletionRequest) : String :=
  let sp := system_prompt_raw req.messages
  let td := (process_tools_with_long_descriptions maxLen req.tools).2
  if td ≠ "" then (if sp ≠ "" then sp ++ td else str_strip td) else sp

/-- The merged non-system message sequence of build_kiro_payload. -/
def merged_messages (req : ChatCompletionRequest) : List ChatMessage :=
  merge_adjacent_messages (strip_system req.messages)

/-- The in-place mutation of build_kiro_payload of converters.py that
prepends the system prompt to the first history message: it happens only
when the prompt is non-empty and the first message has role user. -/
def fold_system_into_head (sp : String) : List ChatMessage → List ChatMessage
  | [] => []
  | first :: rest =>
    if sp ≠ "" ∧ first.role = "user" then
      { first with
        content := Content.str (sp ++ "\n\n" ++ extract_text_content first.content) } :: rest
    else first :: rest

/-- The history slice of build_kiro_payload of converters.py: all merged
messages but the last (empty when only one remains), with the system
prompt folded into the head. -/
def history_messages (maxLen : Int) (req : ChatCompletionRequest) : List ChatMessage :=
  fold_system_into_head (system_prompt_full maxLen req)
    (if 1 < (merged_messages req).length then (merged_messages req).dropLast else [])

/-- The history array of build_kiro_payload. -/
def built_history (maxLen : Int) (req : ChatCompletionRequest) :
    Except ConvertError (List HistoryEntry) :=
  build_kiro_history (history_messages maxLen req) (get_internal_model_id req.model)

/-- _build_user_input_context of converters.py: the processed tools when
present (otherwise the tools of the request) are turned into
toolSpecifications, keeping only function tools, with a None description
replaced by the empty string and None parameters by the empty object;
tool results are extracted from the current message content. -/
def build_user_input_context (req : ChatCompletionRequest) (current_message : ChatMessage)
    (processed_tools : Option (List Tool)) : UserInputContext :=
  let tools_to_use := match processed_tools with
    | some ts => some ts
    | none => req.tools
  let tools_list : List ToolSpec := match tools_to_use with
    | none => []
    | some ts => ts.filterMap (fun t =>
        if t.type = "function" then
          some { name := t.function.name,
                 description := t.function.description.getD "",
                 inputSchema := t.function.parameters.getD (Json.obj []) }
        else none)
  { tools := tools_list, toolResults := extract_tool_results current_message.content }

/-- The pure tail of build_kiro_payload of converters.py, given the last
merged message and the successfully built history: current-message
content (system prompt folded in when the history is empty, an
assistant-roled last message pushed into history with content replaced
by Continue, the empty content replaced by Continue), context attachment
(the key absent when the context dict is empty) and final assembly
(history key absent when empty, profileArn key absent when the argument
is empty). -/
def assemble_payload (maxLen : Int) (req : ChatCompletionRequest)
    (conversation_id profile_arn : String) (current_message : ChatMessage)
    (history : List HistoryEntry) : KiroPayload :=
  let model_id := get_internal_model_id req.model
  let sp := system_prompt_full maxLen req
  let cc0 := extract_text_content current_message.content
  let cc1 := if sp ≠ "" ∧ history.isEmpty then sp ++ "\n\n" ++ cc0 else cc0
  let history2 :=
    if current_message.role = "assistant" then
      history ++ [HistoryEntry.assistantResponseMessage cc1 []]
    else history
  let cc2 := if current_message.role = "assistant" then "Continue" else cc1
  let cc3 := if cc2 = "" then "Continue" else cc2
  let ctx := build_user_input_context req current_message
    (process_tools_with_long_descriptions maxLen req.tools).1
  { conversationId := conversation_id,
    chatTriggerType := "MANUAL",
    currentMessage :=
      { content := cc3, modelId := model_id, origin := "AI_EDITOR",
        userInputMessageContext :=
          if ctx.tools.isEmpty ∧ ctx.toolResults.isEmpty then none else some ctx },
    history := history2,
    profileArn := if profile_arn = "" then none else some profile_arn }

/-- build_kiro_payload of converters.py, with the description-length
limit of the configuration passed explicitly: raise for an empty merged
sequence, otherwise build the history (propagating a json.loads failure)
and assemble the payload around the last merged message. -/
def build_kiro_payload (maxLen : Int) (req : ChatCompletionRequest)
    (conversation_id profile_arn : String) : Except ConvertError KiroPayload :=
  match (merged_messages req).getLast? with
  | none => .error .noMessages
  | some current_message =>
    (built_history maxLen req).map
      (assemble_payload maxLen req conversation_id profile_arn current_message)

/-- Whether the built history is the successfully built empty array. -/
def built_history_is_empty (maxLen : Int) (req : ChatCompletionRequest) : Bool :=
  match built_history maxLen req with
  | .ok [] => true
  | _ => false

/-- The folded text of the last merged message: its flattened content,
with the system prompt prepended exactly when the code does it for the
current message (non-empty prompt and empty built history). -/
def folded_current_text (maxLen : Int) (req : ChatCompletionRequest) : String :=
  match (merged_messages req).getLast? with
  | none => ""
  | some current_message =>
    let cc0 := extract_text_content current_message.content
    if system_prompt_full maxLen req ≠ "" ∧ built_history_is_empty maxLen req then
      system_prompt_full maxLen req ++ "\n\n" ++ cc0
    else cc0

/-- Whether json.loads would succeed on the arguments string of one
tool_calls entry, read exactly as _extract_tool_uses reads it. -/
def tool_call_args_ok (tc : ToolCall) : Bool :=
  match tc with
  | .other => true
  | .dict _ f =>
    (parseJson (((f.getD { name := none, arguments := none }).arguments).getD "\x7b\x7d")).isSome

/-- Whether every tool_calls entry of a message has JSON-parsable
arguments. -/
def msg_args_ok (m : ChatMessage) : Bool := m.tool_calls.all tool_call_args_ok

/-- Whether every message of a request has JSON-parsable tool_calls
arguments: the precondition under which the conversion cannot hit the
unguarded json.loads failure. -/
def request_args_ok (req : ChatCompletionRequest) : Bool := req.messages.all msg_args_ok

/-- Whether a JSON object carries the given key at top level. -/
def hasKey (k : String) : Json → Bool
  | .obj kvs => kvs.any (fun kv => kv.1 == k)
  | _ => false

/-- Whether a JSON object carries a required key whose value is the empty
array, at top level. -/
def hasEmptyRequired : Json → Bool
  | .obj kvs => kvs.any (fun kv =>
      kv.1 == "required" && (match kv.2 with | .arr [] => true | _ => false))
  | _ => false

/-- A user message with plain string content. -/
def user_msg (s : String) : ChatMessage :=
  { role := "user", content := .str s, tool_calls := [], tool_call_id := none }

/-- An assistant message with plain string content. -/
def assistant_msg (s : String) : ChatMessage :=
  { role := "assistant", content := .str s, tool_calls := [], tool_call_id := none }

/-- A system message with plain string content. -/
def system_msg (s : String) : ChatMessage :=
  { role := "system", content := .str s, tool_calls := [], tool_call_id := none }

/-- A tool message with plain string content and a tool_call_id. -/
def tool_msg (s tid : String) : ChatMessage :=
  { role := "tool", content := .str s, tool_calls := [], tool_call_id := some tid }

/-- Request for the C1 witness: one system and one user message. -/
def c1_request : ChatCompletionRequest :=
  { model := "claude-sonnet-4", messages := [system_msg "Sys", user_msg "Hello"], tools := none }

/-- The payload the code builds for c1_request. -/
def c1_payload : KiroPayload :=
  { conversationId := "conv",
    chatTriggerType := "MANUAL",
    currentMessage :=
      { content := "Sys\n\nHello", modelId := "CLAUDE_SONNET_4_20250514_V1_0",
        origin := "AI_EDITOR", userInputMessageContext := none },
    history := [],
    profileArn := some "arn" }

/-- One tool_calls entry with id call_1. -/
def c2_call1 : ToolCall :=
  .dict (some "call_1") (some { name := some "tool1", arguments := some "\x7b\x7d" })

/-- One tool_calls entry with id call_2. -/
def c2_call2 : ToolCall :=
  .dict (some "call_2") (some { name := some "tool2", arguments := some "\x7b\x7d" })

/-- First assistant message of the C2 failing input. -/
def c2_m1 : ChatMessage :=
  { role := "assistant", content := .str "Thinking", tool_calls := [c2_call1], tool_call_id := none }

/-- Second assistant message of the C2 failing input. -/
def c2_m2 : ChatMessage :=
  { role := "assistant", content := .str "Done", tool_calls := [c2_call2], tool_call_id := none }

/-- A user message with list content, one text part. -/
def c2_list_msg (s : String) : ChatMessage :=
  { role := "user", content := .parts [.text s], tool_calls := [], tool_call_id := none }

/-- JSON-Schema parameters violating the sanitisation invariant: an empty
required array and an additionalProperties key. -/
def c3_schema : Json :=
  .obj [("type", .str "object"), ("required", .arr []), ("additionalProperties", .bool false)]

/-- The C3 failing tool. -/
def c3_tool : Tool :=
  { type := "function",
    function := { name := "my_tool", description := some "Does things", parameters := some c3_schema } }

/-- The C3 failing request. -/
def c3_request : ChatCompletionRequest :=
  { model := "m", messages := [user_msg "Hi"], tools := some [c3_tool] }

/-- The assistant tool_calls entry of the C4 scenario. -/
def c4_call : ToolCall :=
  .dict (some "t1") (some { name := some "f", arguments := some "\x7b\x7d" })

/-- The assistant message of the C4 scenario. -/
def c4_assistant : ChatMessage :=
  { role := "assistant", content := .null, tool_calls := [c4_call], tool_call_id := none }

/-- The C4 failing request: user, assistant with a tool call, tool reply. -/
def c4_request : ChatCompletionRequest :=
  { model := "claude-sonnet-4-5", messages := [user_msg "Hi", c4_assistant, tool_msg "OK" "t1"],
    tools := none }

/-- The C5 failing request: the first merged message is an assistant
message, followed by a user message, under a system prompt. -/
def c5_request : ChatCompletionRequest :=
  { model := "m", messages := [system_msg "S", assistant_msg "A", user_msg "B"], tools := none }

/-- Request for the C5 witness, first merged message a user message. -/
def c5w_request : ChatCompletionRequest :=
  { model := "m", messages := [system_msg "S", user_msg "A", assistant_msg "B"], tools := none }

/-- Request for the C5 witness, exactly one merged message. -/
def c5w1_request : ChatCompletionRequest :=
  { model := "m", messages := [system_msg "S", user_msg "A"], tools := none }

/-- A tool_calls entry whose arguments string is not JSON. -/
def c6_bad_call : ToolCall :=
  .dict (some "t1") (some { name := some "f", arguments := some "not json" })

/-- The C6 counterexample request: a history assistant message with
unparsable tool_calls arguments, then a user message. -/
def c6_request : ChatCompletionRequest :=
  { model := "m",
    messages :=
      [{ role := "assistant", content := .null, tool_calls := [c6_bad_call], tool_call_id := none },
       user_msg "hi"],
    tools := none }

/-- Request for the C6 witness: a single plain user message. -/
def c6w_request : ChatCompletionRequest :=
  { model := "m", messages := [user_msg "Hi"], tools := none }

/-- A function tool with the empty description. -/
def c7_empty_tool : Tool :=
  { type := "function", function := { name := "empty_desc", description := some "", parameters := none } }

/-- A function tool with a whitespace-only description. -/
def c7_ws_tool : Tool :=
  { type := "function", function := { name := "ws_desc", description := some "   ", parameters := none } }

/-- A function tool with a null description. -/
def c7_null_tool : Tool :=
  { type := "function", function := { name := "null_desc", description := none, parameters := none } }

/-- The C7 failing request. -/
def c7_request : ChatCompletionRequest :=
  { model := "m", messages := [user_msg "Hi"],
    tools := some [c7_empty_tool, c7_ws_tool, c7_null_tool] }

/-- Tool whose description length is exactly the limit 3. -/
def c8_short_tool : Tool :=
  { type := "function", function := { name := "bash", description := some "abc", parameters := none } }

/-- Tool whose description length is the limit 3 plus one. -/
def c8_long_tool : Tool :=
  { type := "function", function := { name := "bash", description := some "abcd", parameters := none } }

/-- The C10 request: a history assistant message whose tool_calls entry
has the non-JSON arguments string oops), then a user message. -/
def c10_request : ChatCompletionRequest :=
  { model := "m",
    messages :=
      [{ role := "assistant", content := .null,
         tool_calls := [.dict (some "t9") (some { name := some "g", arguments := some "oops)" })],
         tool_call_id := none },
       user_msg "Go"],
    tools := none }

/-- A tool_calls entry with well-formed JSON arguments. -/
def c10_good_call : ToolCall :=
  .dict (some "t") (some { name := some "f", arguments := some "\x7b\"a\": 1\x7d" })

theorem parseJson_empty_object : parseJson "\x7b\x7d" = some (Json.obj []) := rfl

theorem parseJson_not_json : parseJson "not json" = none := rfl

theorem parseJson_nested : parseJson " \x7b\"a\": [1, true, \"x\"]\x7d " =
    some (Json.obj [("a", Json.arr [Json.num "1", Json.bool true, Json.str "x"])]) := rfl

theorem parseJson_empty_string : parseJson "" = none := rfl

theorem parseJson_unterminated : parseJson "\x7b\"a\": 1" = none := rfl

theorem parseJson_rejects_raw_control : parseJson "\"a\nb\"" = none := rfl

theorem parseJson_accepts_escaped_control :
    parseJson "\"a\\nb\"" = some (Json.str "a\nb") := rfl

theorem merge_loop_cons (last : ChatMessage) (ms : List ChatMessage) :
    ∃ m' l', merge_loop last ms = m' :: l' ∧ m'.role = last.role ∧
      m'.tool_calls = last.tool_calls := by
  induction last, ms using merge_loop.induct with
  | case1 last => exact ⟨last, [], rfl, rfl, rfl⟩
  | case2 last msg rest h ih =>
    obtain ⟨m', l', heq, hrole, htc⟩ := ih
    exact ⟨m', l', by simp only [merge_loop, h, if_true]; exact heq, hrole, htc⟩
  | case3 last msg rest h ih =>
    exact ⟨last, merge_loop msg rest, by simp only [merge_loop, h, if_false], rfl, rfl⟩

theorem merge_loop_chain (last : ChatMessage) (ms : List ChatMessage) :
    (merge_loop last ms).Chain' (fun a b => a.role ≠ b.role) := by
  induction last, ms using merge_loop.induct with
  | case1 last => simp [merge_loop]
  | case2 last msg rest h ih => simpa only [merge_loop, h, if_true] using ih
  | case3 last msg rest h ih =>
    simp only [merge_loop, h, if_false]
    obtain ⟨m', l', heq, hrole, -⟩ := merge_loop_cons msg rest
    rw [heq]
    rw [heq] at ih
    exact List.Chain'.cons (by rw [hrole]; exact fun hc => h hc.symm) ih

theorem merge_loop_of_chain (last : ChatMessage) (ms : List ChatMessage)
    (h : (last :: ms).Chain' (fun a b => a.role ≠ b.role)) :
    merge_loop last ms = last :: ms := by
  induction last, ms using merge_loop.induct with
  | case1 last => rfl
  | case2 last msg rest hrole ih =>
    exact absurd hrole.symm (List.chain'_cons.mp h).1
  | case3 last msg rest hrole ih =>
    simp only [merge_loop, hrole, if_false]
    rw [ih (List.chain'_cons.mp h).2]

theorem merge_chain (l : List ChatMessage) :
    (merge_adjacent_messages l).Chain' (fun a b => a.role ≠ b.role) := by
  cases l with
  | nil => simp [merge_adjacent_messages]
  | cons m ms => exact merge_loop_chain m ms

theorem merge_of_chain (l : List ChatMessage)
    (h : l.Chain' (fun a b => a.role ≠ b.role)) : merge_adjacent_messages l = l := by
  cases l with
  | nil => rfl
  | cons m ms => exact merge_loop_of_chain m ms h

theorem merge_eq_nil_iff (l : List ChatMessage) :
    merge_adjacent_messages l = [] ↔ l = [] := by
  constructor
  · intro h
    cases l with
    | nil => rfl
    | cons m ms =>
      obtain ⟨m', l', heq, -, -⟩ := merge_loop_cons m ms
      rw [merge_adjacent_messages, heq] at h
      exact absurd h (by simp)
  · intro h; subst h; rfl

theorem merge_loop_mem (last : ChatMessage) (ms : List ChatMessage) :
    ∀ m ∈ merge_loop last ms, ∃ m0 ∈ last :: ms, m.tool_calls = m0.tool_calls := by
  induction last, ms using merge_loop.induct with
  | case1 last =>
    intro m hm
    rw [show merge_loop last [] = [last] from rfl, List.mem_singleton] at hm
    exact ⟨last, by simp, by rw [hm]⟩
  | case2 last msg rest hrole ih =>
    intro m hm
    simp only [merge_loop, hrole, if_true] at hm
    obtain ⟨m0, hm0, htc⟩ := ih m hm
    rcases List.mem_cons.mp hm0 with h | h
    · exact ⟨last, by simp, by rw [htc, h]⟩
    · exact ⟨m0, by simp [h], htc⟩
  | case3 last msg rest hrole ih =>
    intro m hm
    simp only [merge_loop, hrole, if_false] at hm
    rcases List.mem_cons.mp hm with h | h
    · exact ⟨last, by simp, by rw [h]⟩
    · obtain ⟨m0, hm0, htc⟩ := ih m h
      exact ⟨m0, by simp [List.mem_cons.mp hm0], htc⟩

theorem mem_merge_tool_calls (l : List ChatMessage) :
    ∀ m ∈ merge_adjacent_messages l, ∃ m0 ∈ l, m.tool_calls = m0.tool_calls := by
  cases l with
  | nil => simp [merge_adjacent_messages]
  | cons m ms => exact merge_loop_mem m ms

theorem tool_use_of_call_ok (tc : ToolCall) (h : tool_call_args_ok tc = true) :
    ∃ us, tool_use_of_call tc = .ok us := by
  cases tc with
  | other => exact ⟨[], rfl⟩
  | dict i f =>
    simp only [tool_call_args_ok, Option.isSome_iff_exists] at h
    obtain ⟨j, hj⟩ := h
    simp only [tool_use_of_call, hj]
    exact ⟨_, rfl⟩

theorem tool_uses_of_calls_ok (tcs : List ToolCall)
    (h : tcs.all tool_call_args_ok = true) : ∃ us, tool_uses_of_calls tcs = .ok us := by
  induction tcs with
  | nil => exact ⟨[], rfl⟩
  | cons tc rest ih =>
    rw [List.all_cons, Bool.and_eq_true] at h
    obtain ⟨hd, hhd⟩ := tool_use_of_call_ok tc h.1
    obtain ⟨tl, htl⟩ := ih h.2
    simp only [tool_uses_of_calls, hhd, htl]
    exact ⟨_, rfl⟩

theorem extract_tool_uses_ok (m : ChatMessage) (h : msg_args_ok m = true) :
    ∃ us, extract_tool_uses m = .ok us := by
  obtain ⟨us, hus⟩ := tool_uses_of_calls_ok m.tool_calls h
  simp only [extract_tool_uses, hus, Except.map]
  exact ⟨_, rfl⟩

theorem history_entry_of_ok (mid : String) (m : ChatMessage) (h : msg_args_ok m = true) :
    ∃ es, history_entry_of mid m = .ok es := by
  unfold history_entry_of
  split
  · exact ⟨_, rfl⟩
  · split
    · obtain ⟨us, hus⟩ := extract_tool_uses_ok m h
      simp only [hus, Except.map]
      exact ⟨_, rfl⟩
    · exact ⟨[], rfl⟩

theorem build_kiro_history_ok (msgs : List ChatMessage) (mid : String)
    (h : ∀ m ∈ msgs, msg_args_ok m = true) :
    ∃ es, build_kiro_history msgs mid = .ok es := by
  induction msgs with
  | nil => exact ⟨[], rfl⟩
  | cons m rest ih =>
    obtain ⟨hd, hhd⟩ := history_entry_of_ok mid m (h m (by simp))
    obtain ⟨tl, htl⟩ := ih (fun m' hm' => h m' (by simp [hm']))
    simp only [build_kiro_history, hhd, htl, bind, Except.bind]
    exact ⟨_, rfl⟩

theorem tool_use_of_call_ne_noMessages (tc : ToolCall) :
    tool_use_of_call tc ≠ .error .noMessages := by
  cases tc with
  | other => simp [tool_use_of_call]
  | dict i f =>
    unfold tool_use_of_call
    cases h : parseJson (((f.getD { name := none, arguments := none }).arguments).getD "\x7b\x7d") with
    | none => simp [h]
    | some j => simp [h]

theorem tool_uses_of_calls_ne_noMessages (tcs : List ToolCall) :
    tool_uses_of_calls tcs ≠ .error .noMessages := by
  induction tcs with
  | nil => simp [tool_uses_of_calls]
  | cons tc rest ih =>
    simp only [tool_uses_of_calls]
    cases htc : tool_use_of_call tc with
    | error e =>
      have he : e ≠ .noMessages := fun h => tool_use_of_call_ne_noMessages tc (h ▸ htc)
      simp [bind, Except.bind, he]
    | ok us =>
      cases hr : tool_uses_of_calls rest with
      | error e2 =>
        have he : e2 ≠ .noMessages := fun h => ih (h ▸ hr)
        simp [bind, Except.bind, he]
      | ok us2 => simp [bind, Except.bind, pure, Except.pure]

theorem extract_tool_uses_ne_noMessages (m : ChatMessage) :
    extract_tool_uses m ≠ .error .noMessages := by
  unfold extract_tool_uses
  cases h : tool_uses_of_calls m.tool_calls with
  | error e =>
    have he : e ≠ .noMessages := fun hc => tool_uses_of_calls_ne_noMessages _ (hc ▸ h)
    simp [Except.map, he]
  | ok us => simp [Except.map]

theorem history_entry_of_ne_noMessages (mid : String) (m : ChatMessage) :
    history_entry_of mid m ≠ .error .noMessages := by
  unfold history_entry_of
  split
  · simp
  · split
    · cases h : extract_tool_uses m with
      | error e =>
        have he : e ≠ .noMessages := fun hc => extract_tool_uses_ne_noMessages _ (hc ▸ h)
        simp [Except.map, he]
      | ok us => simp [Except.map]
    · simp

theorem build_kiro_history_ne_noMessages (msgs : List ChatMessage) (mid : String) :
    build_kiro_history msgs mid ≠ .error .noMessages := by
  induction msgs with
  | nil => simp [build_kiro_history]
  | cons m rest ih =>
    simp only [build_kiro_history]
    cases hh : history_entry_of mid m with
    | error e =>
      have he : e ≠ .noMessages := fun hc => history_entry_of_ne_noMessages mid m (hc ▸ hh)
      simp [bind, Except.bind, he]
    | ok es =>
      cases hr : build_kiro_history rest mid with
      | error e2 =>
        have he : e2 ≠ .noMessages := fun hc => ih (hc ▸ hr)
        simp [bind, Except.bind, he]
      | ok es2 => simp [bind, Except.bind, pure, Except.pure]

theorem mem_fold_system_tool_calls (sp : String) (l : List ChatMessage) :
    ∀ m ∈ fold_system_into_head sp l, ∃ m0 ∈ l, m.tool_calls = m0.tool_calls := by
  cases l with
  | nil => simp [fold_system_into_head]
  | cons first rest =>
    intro m hm
    simp only [fold_system_into_head] at hm
    split at hm
    · rcases List.mem_cons.mp hm with h | h
      · exact ⟨first, by simp, by rw [h]⟩
      · exact ⟨m, by simp [h], rfl⟩
    · rcases List.mem_cons.mp hm with h | h
      · exact ⟨first, by simp, by rw [h]⟩
      · exact ⟨m, by simp [h], rfl⟩

theorem history_messages_args_ok (maxLen : Int) (req : ChatCompletionRequest)
    (h : request_args_ok req = true) :
    ∀ m ∈ history_messages maxLen req, msg_args_ok m = true := by
  intro m hm
  unfold history_messages at hm
  obtain ⟨m1, hm1, htc1⟩ := mem_fold_system_tool_calls _ _ m hm
  have hm1' : m1 ∈ merged_messages req := by
    revert hm1
    split
    · exact fun hx => (List.dropLast_sublist _).subset hx
    · simp
  obtain ⟨m0, hm0, htc0⟩ := mem_merge_tool_calls _ m1 hm1'
  have hm0' : m0 ∈ req.messages := List.mem_of_mem_filter hm0
  have h0 : msg_args_ok m0 = true := by
    rw [request_args_ok, List.all_eq_true] at h
    exact h m0 hm0'
  rw [msg_args_ok, htc1, htc0]
  exact h0

theorem build_ok_iff (maxLen : Int) (req : ChatCompletionRequest)
    (cid parn : String) (p : KiroPayload) :
    build_kiro_payload maxLen req cid parn = .ok p ↔
      ∃ cm hist, (merged_messages req).getLast? = some cm ∧
        built_history maxLen req = .ok hist ∧
        p = assemble_payload maxLen req cid parn cm hist := by
  unfold build_kiro_payload
  cases hlast : (merged_messages req).getLast? with
  | none => simp
  | some cm =>
    cases hh : built_history maxLen req with
    | error e => simp [Except.map]
    | ok hist =>
      simp only [Except.map, Except.ok.injEq, Option.some.injEq]
      constructor
      · rintro rfl; exact ⟨cm, hist, rfl, rfl, rfl⟩
      · rintro ⟨cm', hist', hcm, hhist, hp⟩
        subst hcm; subst hhist
        exact hp.symm

theorem build_noMessages_iff (maxLen : Int) (req : ChatCompletionRequest)
    (cid parn : String) :
    build_kiro_payload maxLen req cid parn = .error .noMessages ↔
      strip_system req.messages = [] := by
  unfold build_kiro_payload
  cases hlast : (merged_messages req).getLast? with
  | none =>
    rw [List.getLast?_eq_none_iff] at hlast
    rw [merged_messages, merge_eq_nil_iff] at hlast
    simp [hlast]
  | some cm =>
    have hne : strip_system req.messages ≠ [] := by
      intro hc
      have hmerged : merged_messages req = [] := by
        rw [merged_messages, hc]
        exact (merge_eq_nil_iff []).mpr rfl
      rw [hmerged] at hlast
      simp at hlast
    cases hh : built_history maxLen req with
    | ok hist => simp [Except.map, hne]
    | error e =>
      have he : e ≠ .noMessages := fun hc =>
        build_kiro_history_ne_noMessages (history_messages maxLen req)
          (get_internal_model_id req.model) (hc ▸ hh)
      simp [Except.map, he, hne]

/-- C1: for every chat request on which build_kiro_payload succeeds (which
requires a non-empty message list after stripping system messages), the
current-message content of the returned payload is either the folded text
of the last merged message or the literal Continue; when the folded text
is empty the literal Continue is substituted; and when the last merged
message has role assistant, that message is pushed into history as an
assistantResponseMessage carrying the folded text and the current content
is set to Continue. -/
theorem C1_current_message_folded_or_continue (maxLen : Int)
    (req : ChatCompletionRequest) (cid parn : String) (p : KiroPayload)
    (hok : build_kiro_payload maxLen req cid parn = .ok p) :
    (p.currentMessage.content = folded_current_text maxLen req ∨
      p.currentMessage.content = "Continue")
    ∧ (folded_current_text maxLen req = "" → p.currentMessage.content = "Continue")
    ∧ (∀ cm, (merged_messages req).getLast? = some cm → cm.role = "assistant" →
        p.currentMessage.content = "Continue" ∧
        p.history.getLast? =
          some (.assistantResponseMessage (folded_current_text maxLen req) [])) := by
  obtain ⟨cm, hist, hlast, hh, rfl⟩ := (build_ok_iff maxLen req cid parn p).mp hok
  have hfold : folded_current_text maxLen req =
      (if system_prompt_full maxLen req ≠ "" ∧ hist.isEmpty then
        system_prompt_full maxLen req ++ "\n\n" ++ extract_text_content cm.content
      else extract_text_content cm.content) := by
    unfold folded_current_text
    rw [hlast]
    have hbe : built_history_is_empty maxLen req = hist.isEmpty := by
      unfold built_history_is_empty
      rw [hh]
      cases hist <;> simp
    rw [hbe]
  by_cases hrole : cm.role = "assistant"
  · refine ⟨Or.inr ?_, fun _ => ?_, fun cm' hcm' hrole' => ⟨?_, ?_⟩⟩
    · simp [assemble_payload, hrole]
    · simp [assemble_payload, hrole]
    · simp [assemble_payload, hrole]
    · rw [hlast] at hcm'
      injection hcm' with hcm'
      subst hcm'
      simp only [assemble_payload, hrole, if_true, hfold]
      rw [List.getLast?_concat]
  · refine ⟨?_, fun hF => ?_, fun cm' hcm' hrole' => ?_⟩
    · simp only [assemble_payload, hrole, if_false, hfold]
      by_cases hF : (if system_prompt_full maxLen req ≠ "" ∧ hist.isEmpty then
          system_prompt_full maxLen req ++ "\n\n" ++ extract_text_content cm.content
        else extract_text_content cm.content) = ""
      · right; simp [hF]
      · left; simp [hF]
    · rw [hfold] at hF
      simp [assemble_payload, hrole, hF]
    · rw [hlast] at hcm'
      injection hcm' with hcm'
      subst hcm'
      exact absurd hrole' hrole

/-- C1 witness: at the concrete request with one system and one user
message, the build succeeds and the current content is the folded text
(here the system prompt folded into the user text). -/
theorem C1_witness :
    ∃ p, build_kiro_payload 10000 c1_request "conv" "arn" = .ok p ∧
      (p.currentMessage.content = folded_current_text 10000 c1_request ∨
        p.currentMessage.content = "Continue") :=
  ⟨c1_payload, rfl,
    (C1_current_message_folded_or_continue 10000 c1_request "conv" "arn" c1_payload rfl).1⟩

/-- C2: evaluation at the failing input.  Merging two adjacent assistant
messages flattens both contents into one newline-joined string and keeps
only the first message's tool_calls, dropping the second's entirely; and
merging two user messages with list content yields a flattened string,
not a concatenated list.  This contradicts the claimed merge rules
(list+list concatenation, promotion of strings to text parts, and
concatenation of the tool_calls arrays with neither dropped). -/
theorem C2_merge_drops_tool_calls_and_list_structure :
    merge_adjacent_messages [c2_m1, c2_m2] =
      [{ role := "assistant", content := Content.str "Thinking\nDone",
         tool_calls := [c2_call1], tool_call_id := none }]
    ∧ merge_adjacent_messages [c2_list_msg "a", c2_list_msg "b"] =
      [{ role := "user", content := Content.str "a\nb",
         tool_calls := [], tool_call_id := none }] :=
  ⟨rfl, rfl⟩

/-- C3: evaluation at the failing input.  The parameters object attached
to the outgoing payload as toolSpecification.inputSchema.json is the
request's parameters object unchanged: it still carries an
additionalProperties key and an empty required array, so the claimed
sanitisation invariant is violated (no sanitiser exists in the code). -/
theorem C3_schema_attached_unsanitised :
    build_kiro_payload 10000 c3_request "conv" "" = .ok
      { conversationId := "conv",
        chatTriggerType := "MANUAL",
        currentMessage :=
          { content := "Hi", modelId := "m", origin := "AI_EDITOR",
            userInputMessageContext := some
              { tools := [{ name := "my_tool", description := "Does things",
                            inputSchema := c3_schema }],
                toolResults := [] } },
        history := [],
        profileArn := none }
    ∧ hasKey "additionalProperties" c3_schema = true
    ∧ hasEmptyRequired c3_schema = true :=
  ⟨rfl, rfl, rfl⟩

/-- C4: evaluation at the claimed scenario [user, assistant with a tool
call, tool reply].  The history assistant entry does carry the claimed
toolUses, but the tool-roled message is not rewritten to a user message:
it becomes the current message with plain content OK and no
userInputMessageContext, so the claimed
toolResults=[(t1, success, OK)] never appears. -/
theorem C4_tool_role_not_rewritten :
    build_kiro_payload 10000 c4_request "conv" "" = .ok
      { conversationId := "conv",
        chatTriggerType := "MANUAL",
        currentMessage :=
          { content := "OK", modelId := "CLAUDE_SONNET_4_5_20250929_V1_0",
            origin := "AI_EDITOR", userInputMessageContext := none },
        history :=
          [.userInputMessage "Hi" "CLAUDE_SONNET_4_5_20250929_V1_0" [],
           .assistantResponseMessage ""
             [{ name := "f", input := Json.obj [], toolUseId := "t1" }]],
        profileArn := none } :=
  rfl

/-- C5 counterexample: with system prompt S and merged sequence
[assistant A, user B] the claim requires the first history message to
carry S followed by two newlines and A; the code leaves it as A (and the
Boolean check makes explicit that A is not the prepended string). -/
theorem C5_counterexample :
    build_kiro_payload 10000 c5_request "conv" "" = .ok
      { conversationId := "conv",
        chatTriggerType := "MANUAL",
        currentMessage :=
          { content := "B", modelId := "m", origin := "AI_EDITOR",
            userInputMessageContext := none },
        history := [.assistantResponseMessage "A" []],
        profileArn := none }
    ∧ (("A" : String) == "S" ++ "\n\n" ++ "A") = false :=
  ⟨rfl, rfl⟩

/-- C5 amended: when the merged sequence has at least two items, the
non-empty system prompt is prepended to the first message's content only
when that message's role is user; a first message with role assistant is
left unchanged (the system prompt is then not emitted anywhere).  When
the sequence has exactly one item, the history slice is empty, the
system prompt is folded into the current message's text, and no history
is emitted unless that single message is an assistant message (which the
Continue rule pushes into history). -/
theorem C5_system_prompt_folding_amended (maxLen : Int)
    (req : ChatCompletionRequest) (cid parn : String) :
    (∀ first r rs, merged_messages req = first :: r :: rs →
       system_prompt_full maxLen req ≠ "" → first.role = "user" →
       history_messages maxLen req =
         { first with content := Content.str (system_prompt_full maxLen req ++ "\n\n" ++
             extract_text_content first.content) } :: (r :: rs).dropLast)
    ∧ (∀ first r rs, merged_messages req = first :: r :: rs →
       first.role = "assistant" →
       history_messages maxLen req = first :: (r :: rs).dropLast)
    ∧ (∀ m, merged_messages req = [m] →
       history_messages maxLen req = [] ∧
       (system_prompt_full maxLen req ≠ "" →
         folded_current_text maxLen req =
           system_prompt_full maxLen req ++ "\n\n" ++ extract_text_content m.content) ∧
       (m.role ≠ "assistant" → ∀ p, build_kiro_payload maxLen req cid parn = .ok p →
         p.history = [])) := by
  refine ⟨?_, ?_, ?_⟩
  · intro first r rs hm hsp hrole
    unfold history_messages
    rw [hm]
    have hlen : 1 < (first :: r :: rs).length := by simp
    rw [if_pos hlen, List.dropLast_cons₂]
    simp [fold_system_into_head, hsp, hrole]
  · intro first r rs hm hrole
    unfold history_messages
    rw [hm]
    have hlen : 1 < (first :: r :: rs).length := by simp
    rw [if_pos hlen, List.dropLast_cons₂]
    have hcond : ¬(system_prompt_full maxLen req ≠ "" ∧ first.role = "user") := by
      rintro ⟨-, hu⟩
      rw [hrole] at hu
      simp at hu
    simp [fold_system_into_head, hcond]
  · intro m hm
    have hhm : history_messages maxLen req = [] := by
      unfold history_messages
      rw [hm]
      simp [fold_system_into_head]
    refine ⟨hhm, fun hsp => ?_, fun hrole p hok => ?_⟩
    · unfold folded_current_text
      rw [hm]
      have hbe : built_history_is_empty maxLen req = true := by
        unfold built_history_is_empty built_history
        rw [hhm]
        rfl
      simp [hbe, hsp]
    · obtain ⟨cm, hist, hlast, hh, rfl⟩ := (build_ok_iff maxLen req cid parn p).mp hok
      rw [hm] at hlast
      injection hlast with hlast
      subst hlast
      have hhist : hist = [] := by
        unfold built_history at hh
        rw [hhm] at hh
        simp only [build_kiro_history] at hh
        injection hh with hh
        exact hh.symm
      subst hhist
      simp [assemble_payload, hrole]

/-- C5 witness: with a user-roled first merged message the system prompt
is prepended, and with exactly one merged message the history slice is
empty and the prompt is folded into the current text. -/
theorem C5_witness :
    history_messages 10000 c5w_request =
      [{ role := "user", content := Content.str "S\n\nA",
         tool_calls := [], tool_call_id := none }]
    ∧ history_messages 10000 c5w1_request = []
    ∧ folded_current_text 10000 c5w1_request = "S\n\nA" :=
  ⟨(C5_system_prompt_folding_amended 10000 c5w_request "conv" "").1
     (user_msg "A") (assistant_msg "B") [] rfl (by decide) rfl,
   ((C5_system_prompt_folding_amended 10000 c5w1_request "conv" "").2.2
     (user_msg "A") rfl).1,
   ((C5_system_prompt_folding_amended 10000 c5w1_request "conv" "").2.2
     (user_msg "A") rfl).2.1 (by decide)⟩

/-- C6 counterexample: a request with two non-system messages whose
history assistant carries a non-JSON arguments string makes
build_kiro_payload fail with the escaping JSON-decode error, not the
empty-request error, refuting that every request with at least one
non-system message returns a payload without raising. -/
theorem C6_counterexample :
    build_kiro_payload 10000 c6_request "conv" "" = .error (.jsonDecodeError "not json")
    ∧ (strip_system c6_request.messages).length = 2 :=
  ⟨rfl, rfl⟩

/-- C6 amended: build_kiro_payload fails with the empty-request error if
and only if no non-system messages remain after stripping, and it
returns a payload without raising for every request with at least one
non-system message all of whose tool_calls arguments strings parse as
JSON. -/
theorem C6_empty_request_amended (maxLen : Int) (req : ChatCompletionRequest)
    (cid parn : String) :
    (build_kiro_payload maxLen req cid parn = .error .noMessages ↔
      strip_system req.messages = [])
    ∧ ((strip_system req.messages).isEmpty = false → request_args_ok req = true →
        ∃ p, build_kiro_payload maxLen req cid parn = .ok p) := by
  refine ⟨build_noMessages_iff maxLen req cid parn, fun hne hargs => ?_⟩
  have hne' : strip_system req.messages ≠ [] := by
    intro hc
    rw [hc] at hne
    simp at hne
  have hmne : merged_messages req ≠ [] := by
    rw [merged_messages]
    exact fun hc => hne' ((merge_eq_nil_iff _).mp hc)
  obtain ⟨cm, hcm⟩ : ∃ cm, (merged_messages req).getLast? = some cm := by
    cases hl : (merged_messages req).getLast? with
    | none => exact absurd (List.getLast?_eq_none_iff.mp hl) hmne
    | some cm => exact ⟨cm, rfl⟩
  obtain ⟨hist, hhist⟩ := build_kiro_history_ok (history_messages maxLen req)
    (get_internal_model_id req.model) (history_messages_args_ok maxLen req hargs)
  exact ⟨_, (build_ok_iff maxLen req cid parn _).mpr ⟨cm, hist, hcm, hhist, rfl⟩⟩

/-- C6 witness: a single plain user message gives a payload. -/
theorem C6_witness :
    ∃ p, build_kiro_payload 10000 c6w_request "conv" "" = .ok p :=
  (C6_empty_request_amended 10000 c6w_request "conv" "").2 rfl rfl

/-- C7: evaluation at the failing input.  For function tools whose
description is the empty string, whitespace-only, or null, the
description placed in the outgoing toolSpecification is the empty string
(null mapped to empty), respectively the whitespace kept verbatim; the
claimed literal Tool-colon-name substitution never happens, as the
Boolean checks make explicit. -/
theorem C7_description_not_defaulted :
    build_kiro_payload 10000 c7_request "conv" "" = .ok
      { conversationId := "conv",
        chatTriggerType := "MANUAL",
        currentMessage :=
          { content := "Hi", modelId := "m", origin := "AI_EDITOR",
            userInputMessageContext := some
              { tools :=
                  [{ name := "empty_desc", description := "", inputSchema := Json.obj [] },
                   { name := "ws_desc", description := "   ", inputSchema := Json.obj [] },
                   { name := "null_desc", description := "", inputSchema := Json.obj [] }],
                toolResults := [] } },
        history := [],
        profileArn := none }
    ∧ (("" : String) == "Tool: empty_desc") = false
    ∧ (("   " : String) == "Tool: ws_desc") = false :=
  ⟨rfl, rfl, rfl⟩

/-- C8: a function tool with description length exactly the limit is not
offloaded and produces no documentation; length limit plus one is
offloaded, the description replaced by the sentinel and the section
appended behind the header; two offloaded tools share a single header
with their sections joined by the separator; and limit 0 disables the
offload entirely. -/
theorem C8_description_offload_boundary :
    (∀ (t : Tool) (ts : List Tool),
      process_tools_with_long_descriptions 0 (some (t :: ts)) = (some (t :: ts), ""))
    ∧ (∀ (n : Int) (t : Tool), 0 < n → t.type = "function" →
        ((t.function.description.getD "").length : Int) = n →
        process_tools_with_long_descriptions n (some [t]) = (some [t], ""))
    ∧ (∀ (n : Int) (t : Tool), 0 < n → t.type = "function" →
        ((t.function.description.getD "").length : Int) = n + 1 →
        process_tools_with_long_descriptions n (some [t]) =
          (some [{ type := t.type,
                   function := { name := t.function.name,
                                 description := some (long_description_sentinel t.function.name),
                                 parameters := t.function.parameters } }],
           tool_doc_header ++ ("## Tool: " ++ t.function.name ++ "\n\n" ++
             t.function.description.getD "")))
    ∧ (∀ (n : Int) (t1 t2 : Tool), 0 < n → t1.type = "function" → t2.type = "function" →
        n < ((t1.function.description.getD "").length : Int) →
        n < ((t2.function.description.getD "").length : Int) →
        (process_tools_with_long_descriptions n (some [t1, t2])).2 =
          tool_doc_header ++
            ("## Tool: " ++ t1.function.name ++ "\n\n" ++ t1.function.description.getD "") ++
            "\n\n---\n\n" ++
            ("## Tool: " ++ t2.function.name ++ "\n\n" ++ t2.function.description.getD "")) := by
  refine ⟨?_, ?_, ?_, ?_⟩
  · intro t ts
    simp [process_tools_with_long_descriptions]
  · intro n t hn ht hlen
    have hle : ((t.function.description.getD "").length : Int) ≤ n := le_of_eq hlen
    simp [process_tools_with_long_descriptions, process_tools_loop, ht, hle,
      not_le.mpr hn]
  · intro n t hn ht hlen
    have hgt : ¬((t.function.description.getD "").length : Int) ≤ n := by omega
    simp [process_tools_with_long_descriptions, process_tools_loop, ht, hgt,
      not_le.mpr hn, String.intercalate, String.intercalate.go]
  · intro n t1 t2 hn ht1 ht2 h1 h2
    have hgt1 : ¬((t1.function.description.getD "").length : Int) ≤ n := by omega
    have hgt2 : ¬((t2.function.description.getD "").length : Int) ≤ n := by omega
    simp [process_tools_with_long_descriptions, process_tools_loop, ht1, ht2, hgt1, hgt2,
      not_le.mpr hn, String.intercalate, String.intercalate.go, String.append_assoc]

/-- C8 witness: with limit 3, the three-character description stays and
yields no documentation, while the four-character description is
replaced by the sentinel with its section behind the header. -/
theorem C8_witness :
    process_tools_with_long_descriptions 3 (some [c8_short_tool]) = (some [c8_short_tool], "")
    ∧ process_tools_with_long_descriptions 3 (some [c8_long_tool]) =
      (some [{ type := c8_long_tool.type,
               function := { name := c8_long_tool.function.name,
                             description := some (long_description_sentinel c8_long_tool.function.name),
                             parameters := c8_long_tool.function.parameters } }],
       tool_doc_header ++ ("## Tool: " ++ c8_long_tool.function.name ++ "\n\n" ++
         c8_long_tool.function.description.getD "")) :=
  ⟨C8_description_offload_boundary.2.1 3 c8_short_tool (by decide) rfl (by decide),
   C8_description_offload_boundary.2.2.1 3 c8_long_tool (by decide) rfl (by decide)⟩

/-- C9: merge_adjacent_messages is idempotent: its output has no two
adjacent messages of equal role, and on such lists it is the identity. -/
theorem C9_merge_adjacent_idempotent (messages : List ChatMessage) :
    merge_adjacent_messages (merge_adjacent_messages messages) =
      merge_adjacent_messages messages :=
  merge_of_chain _ (merge_chain messages)

/-- C10: the arguments string of a history assistant tool call goes
through an unguarded JSON parse: on the concrete request whose arguments
string is not JSON, build_kiro_payload surfaces the JSON-decode failure
(no default is substituted) even though two non-system messages are
present, and the parse-precondition predicate is false for it; a
well-formed arguments string parses into the tool-use input as usual. -/
theorem C10_unguarded_json_parse :
    build_kiro_payload 10000 c10_request "conv" "" = .error (.jsonDecodeError "oops)")
    ∧ request_args_ok c10_request = false
    ∧ (strip_system c10_request.messages).length = 2
    ∧ tool_use_of_call c10_good_call =
        .ok [{ name := "f", input := Json.obj [("a", Json.num "1")], toolUseId := "t" }] :=
  ⟨rfl, rfl, rfl, rfl⟩
